import Mathlib

/-!
Verification of the fire-infrastructure coverage engine of
src/src/workers/coverage.worker.js: the spatial grid index, the haversine
distance estimator, the polygon utilities (ray casting and shoelace area),
the address-distance precomputation pass, and the per-zone coverage
analyzer.  Coordinates are modelled as exact rationals; quantities that the
engine computes with real arithmetic (trigonometry, averages) are modelled
over the reals, extended with the infinities and NaN where the source
arithmetic can produce them.
-/

namespace FireCoverage

/-- Model of the special values produced by the JS arithmetic of the
summary computations: a finite real, the two infinities, or NaN. -/
inductive JSNum where
  | real (x : ℝ)
  | posInf
  | negInf
  | nan

open Classical in
/-- JS division `x / y` where the numerator can be infinite (a distance or
a sum of distances, EReal) and the denominator is finite (the counts and
lengths of the engine): `0/0` is NaN, `x/0` is a signed infinity for
`x ≠ 0`, an infinite numerator divides to a signed infinity, and the
finite cases divide exactly. -/
noncomputable def jsDiv (x : EReal) (y : ℝ) : JSNum :=
  if y = 0 then
    if x = 0 then .nan
    else if 0 < x then .posInf
    else .negInf
  else if x = ⊤ then (if 0 < y then .posInf else .negInf)
  else if x = ⊥ then (if 0 < y then .negInf else .posInf)
  else .real (x.toReal / y)

open Classical in
/-- JS multiplication of a possibly special value by a finite constant
(the `* 100` and `* 1000` of the percentage and density fields):
NaN absorbs, an infinity times a nonzero constant keeps or flips sign, an
infinity times zero is NaN. -/
noncomputable def jsMul (a : JSNum) (c : ℝ) : JSNum :=
  match a with
  | .nan => .nan
  | .posInf => if 0 < c then .posInf else if c < 0 then .negInf else .nan
  | .negInf => if 0 < c then .negInf else if c < 0 then .posInf else .nan
  | .real x => .real (x * c)

/-- A percentage or density field of a summary: either the result of the
JS display call `toFixed(1)` applied to a number (note `toFixed` renders
NaN as the string "NaN"), or a string literal assigned directly by the
source code (the literal string zero of the guarded branches). -/
inductive PctField where
  | numToFixed1 (x : JSNum)
  | strLit (s : String)

open Classical in
/-- The boolean `x <= y` comparison of JS on extended-real values. -/
noncomputable def jsLe (x y : EReal) : Bool := if x ≤ y then true else false

open Classical in
/-- The boolean `x < y` comparison of JS on extended-real values. -/
noncomputable def jsLt (x y : EReal) : Bool := if x < y then true else false

open Classical in
/-- JS Math.atan2 by the ECMA-262 case analysis (signed zeros are not
modelled): the angle of the point with abscissa x and ordinate y. -/
noncomputable def atan2 (y x : ℝ) : ℝ :=
  if 0 < x then Real.arctan (y / x)
  else if x < 0 then
    (if 0 ≤ y then Real.arctan (y / x) + Real.pi else Real.arctan (y / x) - Real.pi)
  else
    (if 0 < y then Real.pi / 2 else if y < 0 then -(Real.pi / 2) else 0)

/-- Earth radius in feet, the constant R of the source. -/
def earthRadiusFeet : ℝ := 20902231

/-- haversineDistance of the worker: great-circle distance in feet
between two lat/lon coordinates given in degrees. -/
noncomputable def haversineDistance (lat1 lon1 lat2 lon2 : ℚ) : ℝ :=
  let dLat : ℝ := ((lat2 - lat1 : ℚ) : ℝ) * Real.pi / 180
  let dLon : ℝ := ((lon2 - lon1 : ℚ) : ℝ) * Real.pi / 180
  let a : ℝ := Real.sin (dLat / 2) * Real.sin (dLat / 2) +
      Real.cos ((lat1 : ℝ) * Real.pi / 180) * Real.cos ((lat2 : ℝ) * Real.pi / 180) *
        (Real.sin (dLon / 2) * Real.sin (dLon / 2))
  let c : ℝ := 2 * atan2 (Real.sqrt a) (Real.sqrt (1 - a))
  earthRadiusFeet * c

/-- A point stored in a spatial grid: coordinates plus the optional opaque
payload of the insert call (null is modelled as none). -/
structure GPoint (α : Type) where
  lat : ℚ
  lon : ℚ
  data : Option α
  deriving DecidableEq

/-- SpatialGrid state: the fixed cell size and the flat list of all
inserted points in insertion order.  The cell Map of the source is
recovered by `bucket`: the Map entry of a cell key holds exactly the
inserted points whose cell is that key, in insertion order, which is what
the push-based insert of the source maintains. -/
structure SpatialGrid (α : Type) where
  cellSize : ℚ
  allPoints : List (GPoint α)
  deriving DecidableEq

variable {α : Type}

/-- The constructor with a given cellSizeDegrees: empty Map, no points. -/
def SpatialGrid.mkEmpty (α : Type) (cellSizeDegrees : ℚ) : SpatialGrid α :=
  ⟨cellSizeDegrees, []⟩

/-- clear: drop all buckets and points, keep the cell size. -/
def SpatialGrid.clear (g : SpatialGrid α) : SpatialGrid α :=
  { g with allPoints := [] }

/-- getCell: the (cellX, cellY) integer key of a coordinate,
(floor(lon / cellSize), floor(lat / cellSize)). -/
def SpatialGrid.getCell (g : SpatialGrid α) (lat lon : ℚ) : ℤ × ℤ :=
  (⌊lon / g.cellSize⌋, ⌊lat / g.cellSize⌋)

/-- insert: append the new point to its cell bucket and to allPoints. -/
def SpatialGrid.insert (g : SpatialGrid α) (lat lon : ℚ) (data : Option α) :
    SpatialGrid α :=
  { g with allPoints := g.allPoints ++ [⟨lat, lon, data⟩] }

/-- The bucket of a cell key, i.e. the Map entry of the source. -/
def SpatialGrid.bucket (g : SpatialGrid α) (c : ℤ × ℤ) : List (GPoint α) :=
  g.allPoints.filter (fun p => decide (g.getCell p.lat p.lon = c))

/-- The offsets -r..r of the dx and dy loops of getNearbyPoints. -/
def intRange (r : ℕ) : List ℤ :=
  (List.range (2 * r + 1)).map (fun i : ℕ => (i : ℤ) - (r : ℤ))

/-- The (2r+1)^2 cell keys of the block of radius r around a center cell,
in the dx-major, dy-minor order of the source loops. -/
def blockCells (cx cy : ℤ) (r : ℕ) : List (ℤ × ℤ) :=
  (intRange r).flatMap (fun dx => (intRange r).map (fun dy => (cx + dx, cy + dy)))

/-- getNearbyPoints: concatenate the buckets of the cell block of radius
radiusCells around the cell of the query coordinate. -/
def SpatialGrid.getNearbyPoints (g : SpatialGrid α) (lat lon : ℚ) (radiusCells : ℕ) :
    List (GPoint α) :=
  let centerCellX : ℤ := ⌊lon / g.cellSize⌋
  let centerCellY : ℤ := ⌊lat / g.cellSize⌋
  (blockCells centerCellX centerCellY radiusCells).flatMap (fun c => g.bucket c)

open Classical in
/-- The candidate scan of findNearest: starting from the accumulator
(bestPoint, bestDist) = (null, Infinity), replace it whenever a candidate
has strictly smaller haversine distance to the query. -/
noncomputable def bestScan (lat lon : ℚ) (acc : Option (GPoint α) × EReal) :
    List (GPoint α) → Option (GPoint α) × EReal
  | [] => acc
  | p :: ps =>
    let dist : EReal := ((haversineDistance lat lon p.lat p.lon : ℝ) : EReal)
    if dist < acc.2 then bestScan lat lon (some p, dist) ps
    else bestScan lat lon acc ps

/-- The radius-expansion loop of findNearest: try the given radius, then
radius+1 and so on while fuel remains; the source iterates radius 1..20.
A radius with a non-empty candidate block stops the loop and its best
candidate is returned; exhausted fuel returns (null, Infinity). -/
noncomputable def findNearestLoop (g : SpatialGrid α) (lat lon : ℚ) :
    ℕ → ℕ → Option (GPoint α) × EReal
  | _, 0 => (none, ⊤)
  | radius, fuel + 1 =>
    let candidates := g.getNearbyPoints lat lon radius
    if candidates.isEmpty then findNearestLoop g lat lon (radius + 1) fuel
    else bestScan lat lon (none, ⊤) candidates

/-- findNearest: ring search from radius 1 up to the hard cap of 20. -/
noncomputable def SpatialGrid.findNearest (g : SpatialGrid α) (lat lon : ℚ) :
    Option (GPoint α) × EReal :=
  findNearestLoop g lat lon 1 20

/-- A GeoJSON-style geometry: a Polygon (list of rings), a MultiPolygon
(list of polygons, each a list of rings), or an unsupported kind.  A ring
is a list of (x, y) = (lon, lat) vertices, matching the index accesses
coords[i][0] = lon and coords[i][1] = lat of the source. -/
inductive Geometry where
  | polygon (coordinates : List (List (ℚ × ℚ)))
  | multiPolygon (coordinates : List (List (List (ℚ × ℚ))))
  | other
  deriving DecidableEq

/-- A GeoJSON feature: just the geometry (other fields are unused). -/
structure Feature where
  geometry : Geometry
  deriving DecidableEq

/-- The crossing test of one ray-cast step, for the edge from vertex j to
vertex i (the pair e = (coords[j], coords[i])): the horizontal ray at the
query latitude crosses the edge strictly left-to-the-query check of the
source. -/
def edgeCross (lat lon : ℚ) (e : (ℚ × ℚ) × (ℚ × ℚ)) : Bool :=
  let xj := e.1.1
  let yj := e.1.2
  let xi := e.2.1
  let yi := e.2.2
  (decide (yi > lat) != decide (yj > lat)) &&
    decide (lon < (xj - xi) * (lat - yi) / (yj - yi) + xi)

/-- The edge list of the source loop over a ring: indices
(j, i) = (n-1, 0), (0, 1), ..., (n-2, n-1), i.e. the wraparound edge from
the last vertex to the first, then the consecutive edges. -/
def ringEdges : List (ℚ × ℚ) → List ((ℚ × ℚ) × (ℚ × ℚ))
  | [] => []
  | c :: cs => ((c :: cs).getLastD c, c) :: (c :: cs).zip cs

/-- The even-odd ray cast over one ring: toggle the inside flag at every
crossing edge, starting from false. -/
def rayCastRing (lat lon : ℚ) (coords : List (ℚ × ℚ)) : Bool :=
  (ringEdges coords).foldl
    (fun inside e => if edgeCross lat lon e then !inside else inside) false

/-- pointInPolygon of the worker.  For a Polygon the source tests only
coordinates[0] (the outer ring), modelled as take 1; for a MultiPolygon it
tests the first ring p[0] of every part, modelled as headD []; any other
geometry kind returns false.  The point is inside when any tested ring
reports inside. -/
def pointInPolygon (lat lon : ℚ) (polygon : Feature) : Bool :=
  match polygon.geometry with
  | .polygon coordinates => (coordinates.take 1).any (rayCastRing lat lon)
  | .multiPolygon coordinates =>
      (coordinates.map (fun p => p.headD [])).any (rayCastRing lat lon)
  | .other => false

/-- calculateRingArea of the worker: shoelace formula over the coordinates
scaled to miles, longitude by 69 * cos(average ring latitude) and latitude
by 69, summing terms for consecutive vertex pairs only (index i from 0 to
length - 2, no wraparound edge).  The average latitude is a rational mean
(for the empty ring the source mean is NaN, here the junk value 0; the
area is 0 either way since the sum is empty). -/
noncomputable def calculateRingArea (coords : List (ℚ × ℚ)) : ℝ :=
  let avgLat : ℚ := (coords.foldl (fun sum c => sum + c.2) 0) / coords.length
  let lonToMiles : ℝ := 69 * Real.cos ((avgLat : ℝ) * Real.pi / 180)
  let latToMiles : ℝ := 69
  let area : ℝ := (coords.zip coords.tail).foldl
    (fun area e =>
      area + (((e.1.1 : ℝ) * lonToMiles) * ((e.2.2 : ℝ) * latToMiles) -
        ((e.2.1 : ℝ) * lonToMiles) * ((e.1.2 : ℝ) * latToMiles))) 0
  |area / 2|

/-- calculatePolygonArea of the worker: the outer ring coordinates[0] for
a Polygon (modelled as headD []), the sum of the outer-ring areas for a
MultiPolygon, and 0 for unsupported kinds. -/
noncomputable def calculatePolygonArea (polygon : Feature) : ℝ :=
  match polygon.geometry with
  | .polygon coordinates => calculateRingArea (coordinates.headD [])
  | .multiPolygon coordinates =>
      (coordinates.map (fun poly => calculateRingArea (poly.headD []))).sum
  | .other => 0

/-- A fire station record: coordinates (other payload fields opaque). -/
structure Station where
  lat : ℚ
  lon : ℚ
  deriving DecidableEq

/-- A hydrant record: coordinates. -/
structure Hydrant where
  lat : ℚ
  lon : ℚ
  deriving DecidableEq

/-- An address record as supplied to precomputation: coordinates. -/
structure Addr where
  lat : ℚ
  lon : ℚ
  deriving DecidableEq

/-- An Address Distance Record produced by the precomputation pass. -/
structure AddrRecord (α : Type) where
  lat : ℚ
  lon : ℚ
  nearestHydrantDist : EReal
  nearestStationDist : EReal
  nearestStationData : Option α
  within500ft : Bool
  within1000ft : Bool
  underserved : Bool
  withinStationMile : Bool

/-- One mile in feet, the ONE_MILE_FT constant of the source. -/
def ONE_MILE_FT : ℚ := 5280

/-- The per-address body of the precomputation loop: nearest hydrant from
the hydrant grid, nearest station from the station grid only when the
station list is non-empty (otherwise the (null, Infinity) default), the
station payload back-reference, and the four threshold booleans. -/
noncomputable def precomputeRecord (hydrantGrid stationGrid : SpatialGrid Station)
    (stationsList : List Station) (addr : Addr) : AddrRecord Station :=
  let nearestHydrant := hydrantGrid.findNearest addr.lat addr.lon
  let nearestStation :=
    if 0 < stationsList.length then stationGrid.findNearest addr.lat addr.lon
    else ((none : Option (GPoint Station)), (⊤ : EReal))
  { lat := addr.lat
    lon := addr.lon
    nearestHydrantDist := nearestHydrant.2
    nearestStationDist := nearestStation.2
    nearestStationData := nearestStation.1.bind (fun p => p.data)
    within500ft := jsLe nearestHydrant.2 ((500 : ℝ) : EReal)
    within1000ft := jsLe nearestHydrant.2 ((1000 : ℝ) : EReal)
    underserved := jsLt ((1000 : ℝ) : EReal) nearestHydrant.2
    withinStationMile := jsLe nearestStation.2 (((ONE_MILE_FT : ℚ) : ℝ) : EReal) }

/-- precomputeAddressDistances: one record per address, in input order. -/
noncomputable def precomputeAddressDistances (hydrantGrid stationGrid : SpatialGrid Station)
    (stationsList : List Station) (addresses : List Addr) : List (AddrRecord Station) :=
  addresses.map (precomputeRecord hydrantGrid stationGrid stationsList)

/-- The Global Summary posted at the end of the precomputation pass. -/
structure GlobalSummary where
  count : ℕ
  within500ft : ℕ
  within1000ft : ℕ
  underserved : ℕ
  withinStationMile : ℕ
  avgDistance : JSNum
  avgStationDistance : JSNum
  pctWithin500 : PctField
  pctWithin1000 : PctField
  pctWithinStationMile : PctField

open Classical in
/-- The summary computation at the end of precomputeAddressDistances:
filter counts, the mean hydrant distance (unguarded division by the
record count), the mean station distance (0 when there are no stations),
and the three toFixed(1) percentage fields, the station one degrading to
the literal string zero when there are no stations. -/
noncomputable def summarize (stationsList : List Station)
    (recs : List (AddrRecord Station)) : GlobalSummary :=
  let within500 := (recs.filter (fun a => a.within500ft)).length
  let within1000 := (recs.filter (fun a => a.within1000ft)).length
  let underserved := (recs.filter (fun a => a.underserved)).length
  let withinStationMile := (recs.filter (fun a => a.withinStationMile)).length
  let avgDist := jsDiv ((recs.map (fun a => a.nearestHydrantDist)).sum) (recs.length : ℝ)
  let avgStationDist :=
    if 0 < stationsList.length then
      jsDiv ((recs.map (fun a => a.nearestStationDist)).sum) (recs.length : ℝ)
    else JSNum.real 0
  { count := recs.length
    within500ft := within500
    within1000ft := within1000
    underserved := underserved
    withinStationMile := withinStationMile
    avgDistance := avgDist
    avgStationDistance := avgStationDist
    pctWithin500 :=
      .numToFixed1 (jsMul (jsDiv (((within500 : ℝ) : EReal)) (recs.length : ℝ)) 100)
    pctWithin1000 :=
      .numToFixed1 (jsMul (jsDiv (((within1000 : ℝ) : EReal)) (recs.length : ℝ)) 100)
    pctWithinStationMile :=
      if 0 < stationsList.length then
        .numToFixed1 (jsMul (jsDiv (((withinStationMile : ℝ) : EReal)) (recs.length : ℝ)) 100)
      else .strLit "0" }

/-- The Zone Statistics record computed by analyzeZipCode. -/
structure ZoneStats where
  hydrantCount : ℕ
  stationCount : ℕ
  addressCount : ℕ
  addressesWithin500ft : ℕ
  addressesWithin1000ft : ℕ
  addressesUnderserved : ℕ
  addressesWithinStationMile : ℕ
  avgDistanceToHydrant : JSNum
  avgDistanceToStation : JSNum
  minDistance : EReal
  maxDistance : EReal
  areaSqMiles : ℝ
  addressDensity : ℝ
  hydrantDensityPerSqMile : ℝ
  isRural : Bool
  ruralNote : Option String
  coveragePercent500 : PctField
  coveragePercent1000 : PctField
  stationCoveragePercent : PctField
  hydrantDensity : PctField
  areaType : Option String

/-- The worker-global engine state. -/
structure WorkerState where
  hydrantGrid : SpatialGrid Station
  stationGrid : SpatialGrid Station
  addressesWithDistances : List (AddrRecord Station)
  hydrantsList : List Hydrant
  stationsList : List Station

/-- The initial worker state: fine hydrant grid (0.005 degree cells),
coarse station grid (0.01 degree cells), everything empty. -/
def initialState : WorkerState :=
  { hydrantGrid := SpatialGrid.mkEmpty Station 0.005
    stationGrid := SpatialGrid.mkEmpty Station 0.01
    addressesWithDistances := []
    hydrantsList := []
    stationsList := [] }

open Classical in
/-- analyzeZipCode of the worker, as a pure function of the engine state
and the zone polygon.  The source accumulates the address statistics in
one loop over the precomputed records guarded by point-in-polygon; the
accumulated quantities are independent, so they are modelled as counts,
sums and folds over the filtered record list (same order, same values).
Fields assigned only inside the addressCount > 0 and areaSqMiles > 0
branches keep their initial values (0, Infinity, 0, false, none) in the
other branch, exactly as the source object does. -/
noncomputable def analyzeZipCode (s : WorkerState) (zipCodeFeature : Feature) : ZoneStats :=
  let areaSqMiles := calculatePolygonArea zipCodeFeature
  let hydrantCount :=
    (s.hydrantsList.filter (fun h => pointInPolygon h.lat h.lon zipCodeFeature)).length
  let stationCount :=
    (s.stationsList.filter (fun t => pointInPolygon t.lat t.lon zipCodeFeature)).length
  let insideAddrs :=
    s.addressesWithDistances.filter (fun a => pointInPolygon a.lat a.lon zipCodeFeature)
  let addressCount := insideAddrs.length
  let totalHydrantDistance := (insideAddrs.map (fun a => a.nearestHydrantDist)).sum
  let totalStationDistance := (insideAddrs.map (fun a => a.nearestStationDist)).sum
  let minDistance := insideAddrs.foldl
    (fun m a => if a.nearestHydrantDist < m then a.nearestHydrantDist else m) ⊤
  let maxDistance := insideAddrs.foldl
    (fun m a => if m < a.nearestHydrantDist then a.nearestHydrantDist else m) 0
  let n500 := (insideAddrs.filter (fun a => a.within500ft)).length
  let n1000 := (insideAddrs.filter (fun a => a.within1000ft)).length
  let nUnder := (insideAddrs.filter (fun a => a.underserved)).length
  let nStationMile := (insideAddrs.filter (fun a => a.withinStationMile)).length
  let addressDensity : ℝ :=
    if 0 < areaSqMiles then (addressCount : ℝ) / areaSqMiles else 0
  { hydrantCount := hydrantCount
    stationCount := stationCount
    addressCount := addressCount
    addressesWithin500ft := n500
    addressesWithin1000ft := n1000
    addressesUnderserved := nUnder
    addressesWithinStationMile := nStationMile
    avgDistanceToHydrant :=
      if 0 < addressCount then jsDiv totalHydrantDistance (addressCount : ℝ)
      else JSNum.real 0
    avgDistanceToStation :=
      if 0 < addressCount then jsDiv totalStationDistance (addressCount : ℝ)
      else JSNum.real 0
    minDistance := minDistance
    maxDistance := maxDistance
    areaSqMiles := areaSqMiles
    addressDensity := addressDensity
    hydrantDensityPerSqMile :=
      if 0 < areaSqMiles then (hydrantCount : ℝ) / areaSqMiles else 0
    isRural := if 0 < areaSqMiles then decide (addressDensity < 100) else false
    ruralNote :=
      if 0 < areaSqMiles then
        (if addressDensity < 100 then
          some ("Low population density area. Fire departments may use tanker trucks " ++
            "or draft water from natural sources.")
        else none)
      else none
    coveragePercent500 :=
      if 0 < addressCount then
        .numToFixed1 (jsMul (jsDiv (((n500 : ℝ) : EReal)) (addressCount : ℝ)) 100)
      else .strLit "0"
    coveragePercent1000 :=
      if 0 < addressCount then
        .numToFixed1 (jsMul (jsDiv (((n1000 : ℝ) : EReal)) (addressCount : ℝ)) 100)
      else .strLit "0"
    stationCoveragePercent :=
      if 0 < addressCount then
        .numToFixed1 (jsMul (jsDiv (((nStationMile : ℝ) : EReal)) (addressCount : ℝ)) 100)
      else .strLit "0"
    hydrantDensity :=
      if 0 < addressCount then
        .numToFixed1 (jsMul (jsDiv (((hydrantCount : ℝ) : EReal)) (addressCount : ℝ)) 1000)
      else .strLit "0"
    areaType :=
      if 0 < areaSqMiles then
        (if addressDensity < 100 then some "Rural"
         else if addressDensity < 1000 then some "Suburban"
         else some "Urban")
      else none }

/-- The buildHydrantIndex handler: clear the hydrant grid, reinsert every
hydrant with a null payload, and replace the hydrant list. -/
def buildHydrantIndexState (s : WorkerState) (hydrants : List Hydrant) : WorkerState :=
  { s with
    hydrantGrid := hydrants.foldl (fun g h => g.insert h.lat h.lon none) s.hydrantGrid.clear
    hydrantsList := hydrants }

/-- The setStations handler: clear the station grid, reinsert every
station with itself as payload, and replace the station list. -/
def setStationsState (s : WorkerState) (stations : List Station) : WorkerState :=
  { s with
    stationGrid :=
      stations.foldl (fun g t => g.insert t.lat t.lon (some t)) s.stationGrid.clear
    stationsList := stations }

/-- The precomputeAddressDistances handler: rebuild the precomputed
address-distance table from the current grids and station list. -/
noncomputable def precomputeState (s : WorkerState) (addresses : List Addr) : WorkerState :=
  { s with addressesWithDistances :=
      precomputeAddressDistances s.hydrantGrid s.stationGrid s.stationsList addresses }

/-- The request messages of the worker protocol. -/
inductive WorkerMsg where
  | buildHydrantIndex (hydrants : List Hydrant)
  | setStations (stations : List Station)
  | precomputeAddressDistances (addresses : List Addr)
  | analyzeZipCode (zipCodeFeature : Feature)

/-- The response messages posted back by the worker (elapsed wall-clock
times are not modelled). -/
inductive WorkerResponse where
  | hydrantIndexReady (count : ℕ)
  | stationsIndexReady (count : ℕ)
  | addressDistancesReady (count : ℕ) (summary : GlobalSummary)
  | zipCodeAnalysisReady (stats : ZoneStats)

/-- The onmessage dispatcher: each request maps the engine state to a new
state and one response. -/
noncomputable def handleMessage (s : WorkerState) : WorkerMsg → WorkerState × WorkerResponse
  | .buildHydrantIndex hydrants =>
      (buildHydrantIndexState s hydrants, .hydrantIndexReady hydrants.length)
  | .setStations stations =>
      (setStationsState s stations, .stationsIndexReady stations.length)
  | .precomputeAddressDistances addresses =>
      let s2 := precomputeState s addresses
      (s2, .addressDistancesReady s2.addressesWithDistances.length
        (summarize s.stationsList s2.addressesWithDistances))
  | .analyzeZipCode f => (s, .zipCodeAnalysisReady (analyzeZipCode s f))

/-- An empty hydrant grid with the engine cell size. -/
def hg0 : SpatialGrid Station := SpatialGrid.mkEmpty Station 0.005

/-- An empty station grid with the engine cell size. -/
def sg0 : SpatialGrid Station := SpatialGrid.mkEmpty Station 0.01

/-- A concrete address at the origin. -/
def addr0 : Addr := ⟨0, 0⟩

/-- A concrete precomputed record lying outside the unit square. -/
def w9rec : AddrRecord Station :=
  { lat := 5, lon := 5, nearestHydrantDist := ((0 : ℝ) : EReal),
    nearestStationDist := ((0 : ℝ) : EReal), nearestStationData := none,
    within500ft := true, within1000ft := true, underserved := false,
    withinStationMile := true }

/-- A worker state whose only precomputed address lies at (5, 5). -/
def w9state : WorkerState := { initialState with addressesWithDistances := [w9rec] }

/-- The unit-square zone polygon (GeoJSON (lon, lat) vertex order). -/
def squareFeature : Feature := ⟨.polygon [[(0, 0), (1, 0), (1, 1), (0, 1)]]⟩

/- ------------------------------------------------------------------ -/
/- Basic lemmas about the JS comparison helpers.                       -/
/- ------------------------------------------------------------------ -/

lemma jsLe_eq_true_iff (x y : EReal) : jsLe x y = true ↔ x ≤ y := by
  by_cases h : x ≤ y <;> simp [jsLe, h]

lemma jsLt_eq_true_iff (x y : EReal) : jsLt x y = true ↔ x < y := by
  by_cases h : x < y <;> simp [jsLt, h]

/-- Claim C10: zone analysis is a pure read of engine state: the
analyzeZipCode message leaves the grids, the lists and the precomputed
table exactly as they were, and only produces the statistics response. -/
theorem claimC10_analyze_frame (s : WorkerState) (f : Feature) :
    (handleMessage s (.analyzeZipCode f)).1 = s ∧
    (handleMessage s (.analyzeZipCode f)).1.hydrantGrid = s.hydrantGrid ∧
    (handleMessage s (.analyzeZipCode f)).1.stationGrid = s.stationGrid ∧
    (handleMessage s (.analyzeZipCode f)).1.hydrantsList = s.hydrantsList ∧
    (handleMessage s (.analyzeZipCode f)).1.stationsList = s.stationsList ∧
    (handleMessage s (.analyzeZipCode f)).1.addressesWithDistances =
      s.addressesWithDistances ∧
    (handleMessage s (.analyzeZipCode f)).2 =
      .zipCodeAnalysisReady (analyzeZipCode s f) :=
  ⟨rfl, rfl, rfl, rfl, rfl, rfl, rfl⟩

/-- Claim C1 (evaluation at the failing input): on an empty address
collection the Global Summary divides zero by zero: the mean hydrant
distance is NaN and the two hydrant percentage fields are toFixed(1)
applied to NaN (which JS renders as the string "NaN"), contradicting the
required 0 / no-data degradation. -/
theorem claimC1_summary_nan_on_empty :
    (summarize [] (precomputeAddressDistances hg0 sg0 [] [])).avgDistance = JSNum.nan ∧
    (summarize [] (precomputeAddressDistances hg0 sg0 [] [])).pctWithin500 =
      PctField.numToFixed1 JSNum.nan ∧
    (summarize [] (precomputeAddressDistances hg0 sg0 [] [])).pctWithin1000 =
      PctField.numToFixed1 JSNum.nan := by
  simp [precomputeAddressDistances, summarize, jsDiv, jsMul]

/-- Claim C3: the coverage flags of every precomputed record are exactly
the inclusive threshold comparisons on the stored nearest distances, so
within500ft implies within1000ft and underserved holds iff the nearest
hydrant distance exceeds 1000 ft. -/
theorem claimC3_coverage_flags (hydrantGrid stationGrid : SpatialGrid Station)
    (stationsList : List Station) (addresses : List Addr) (rec : AddrRecord Station)
    (hmem : rec ∈ precomputeAddressDistances hydrantGrid stationGrid stationsList addresses) :
    (rec.within500ft = true ↔ rec.nearestHydrantDist ≤ ((500 : ℝ) : EReal)) ∧
    (rec.within1000ft = true ↔ rec.nearestHydrantDist ≤ ((1000 : ℝ) : EReal)) ∧
    (rec.underserved = true ↔ ((1000 : ℝ) : EReal) < rec.nearestHydrantDist) ∧
    (rec.withinStationMile = true ↔ rec.nearestStationDist ≤ ((5280 : ℝ) : EReal)) ∧
    (rec.within500ft = true → rec.within1000ft = true) := by
  obtain ⟨a, _, rfl⟩ := List.mem_map.mp hmem
  have hmile : (((ONE_MILE_FT : ℚ) : ℝ) : EReal) = ((5280 : ℝ) : EReal) := by
    norm_num [ONE_MILE_FT]
  refine ⟨?_, ?_, ?_, ?_, ?_⟩
  · simp [precomputeRecord, jsLe_eq_true_iff]
  · simp [precomputeRecord, jsLe_eq_true_iff]
  · simp [precomputeRecord, jsLt_eq_true_iff]
  · simp [precomputeRecord, hmile, jsLe_eq_true_iff]
  · simp only [precomputeRecord, jsLe_eq_true_iff]
    intro h
    exact le_trans h (EReal.coe_le_coe_iff.mpr (by norm_num))

/-- Witness for claim C3: a concrete record (empty grids, so infinite
distances) is a member of a concrete precomputation output and satisfies
the flag characterization. -/
theorem claimC3_coverage_flags_witness :
    (precomputeRecord hg0 sg0 [] addr0 ∈
      precomputeAddressDistances hg0 sg0 [] [addr0]) ∧
    (((precomputeRecord hg0 sg0 [] addr0).within500ft = true ↔
        (precomputeRecord hg0 sg0 [] addr0).nearestHydrantDist ≤ ((500 : ℝ) : EReal)) ∧
      ((precomputeRecord hg0 sg0 [] addr0).within1000ft = true ↔
        (precomputeRecord hg0 sg0 [] addr0).nearestHydrantDist ≤ ((1000 : ℝ) : EReal)) ∧
      ((precomputeRecord hg0 sg0 [] addr0).underserved = true ↔
        ((1000 : ℝ) : EReal) < (precomputeRecord hg0 sg0 [] addr0).nearestHydrantDist) ∧
      ((precomputeRecord hg0 sg0 [] addr0).withinStationMile = true ↔
        (precomputeRecord hg0 sg0 [] addr0).nearestStationDist ≤ ((5280 : ℝ) : EReal)) ∧
      ((precomputeRecord hg0 sg0 [] addr0).within500ft = true →
        (precomputeRecord hg0 sg0 [] addr0).within1000ft = true)) :=
  ⟨by simp [precomputeAddressDistances],
    claimC3_coverage_flags hg0 sg0 [] [addr0] _ (by simp [precomputeAddressDistances])⟩

/-- Claim C9: zone analysis over a polygon containing none of the
precomputed addresses degrades every percentage and average field to the
guarded well-defined values: the literal string zero for the percentage
and density fields and the number 0 for the averages; none of them is
NaN. -/
theorem claimC9_zone_zero_addresses (s : WorkerState) (f : Feature)
    (h : ∀ a ∈ s.addressesWithDistances, pointInPolygon a.lat a.lon f = false) :
    (analyzeZipCode s f).addressCount = 0 ∧
    (analyzeZipCode s f).coveragePercent500 = PctField.strLit "0" ∧
    (analyzeZipCode s f).coveragePercent1000 = PctField.strLit "0" ∧
    (analyzeZipCode s f).stationCoveragePercent = PctField.strLit "0" ∧
    (analyzeZipCode s f).hydrantDensity = PctField.strLit "0" ∧
    (analyzeZipCode s f).avgDistanceToHydrant = JSNum.real 0 ∧
    (analyzeZipCode s f).avgDistanceToStation = JSNum.real 0 := by
  have hfil : s.addressesWithDistances.filter
      (fun a => pointInPolygon a.lat a.lon f) = [] :=
    List.filter_eq_nil_iff.mpr (fun a ha => by simp [h a ha])
  simp [analyzeZipCode, hfil]

/-- Witness for claim C9: the concrete state whose single precomputed
address (5, 5) lies outside the unit-square zone polygon. -/
theorem claimC9_zone_zero_addresses_witness :
    (∀ a ∈ w9state.addressesWithDistances,
      pointInPolygon a.lat a.lon squareFeature = false) ∧
    ((analyzeZipCode w9state squareFeature).addressCount = 0 ∧
      (analyzeZipCode w9state squareFeature).coveragePercent500 = PctField.strLit "0" ∧
      (analyzeZipCode w9state squareFeature).coveragePercent1000 = PctField.strLit "0" ∧
      (analyzeZipCode w9state squareFeature).stationCoveragePercent = PctField.strLit "0" ∧
      (analyzeZipCode w9state squareFeature).hydrantDensity = PctField.strLit "0" ∧
      (analyzeZipCode w9state squareFeature).avgDistanceToHydrant = JSNum.real 0 ∧
      (analyzeZipCode w9state squareFeature).avgDistanceToStation = JSNum.real 0) :=
  ⟨by decide, claimC9_zone_zero_addresses w9state squareFeature (by decide)⟩

/- ------------------------------------------------------------------ -/
/- Ray casting: parity structure of the toggle fold.                   -/
/- ------------------------------------------------------------------ -/

variable {β : Type}

/-- The crossing parity of an edge list (exclusive-or of the crossing
tests), the value computed by the toggle loop of the ray cast. -/
def toggleFold (p : β → Bool) (l : List β) : Bool :=
  l.foldr (fun e acc => (p e != acc)) false

lemma bne_assoc3 : ∀ x y z : Bool, ((x != y) != z) = (x != (y != z)) := by decide

lemma bne_comm2 : ∀ x y : Bool, (x != y) = (y != x) := by decide

lemma bne_false2 : ∀ x : Bool, (x != false) = x := by decide

lemma bne_self2 : ∀ x : Bool, (x != x) = false := by decide

lemma toggleFold_nil (p : β → Bool) : toggleFold p [] = false := rfl

lemma toggleFold_cons (p : β → Bool) (e : β) (t : List β) :
    toggleFold p (e :: t) = (p e != toggleFold p t) := rfl

lemma toggleFold_append (p : β → Bool) (l1 l2 : List β) :
    toggleFold p (l1 ++ l2) = (toggleFold p l1 != toggleFold p l2) := by
  induction l1 with
  | nil => simp [toggleFold_nil, List.nil_append, bne_comm2, bne_false2]
  | cons e t ih =>
    rw [List.cons_append, toggleFold_cons, ih, toggleFold_cons, bne_assoc3]

lemma foldl_toggle_eq (p : β → Bool) (l : List β) (b : Bool) :
    l.foldl (fun inside e => if p e then !inside else inside) b
      = (b != toggleFold p l) := by
  induction l generalizing b with
  | nil => simp [toggleFold_nil, bne_false2]
  | cons e t ih =>
    simp only [List.foldl_cons]
    rw [show (if p e then !b else b) = (b != p e) from by
      cases hp : p e <;> cases b <;> simp [hp]]
    rw [ih, toggleFold_cons, bne_assoc3]

lemma rayCastRing_eq (lat lon : ℚ) (coords : List (ℚ × ℚ)) :
    rayCastRing lat lon coords = toggleFold (edgeCross lat lon) (ringEdges coords) := by
  rw [rayCastRing, foldl_toggle_eq]
  cases toggleFold (edgeCross lat lon) (ringEdges coords) <;> rfl

/-- A horizontal edge, in particular a degenerate point edge, never
toggles the parity. -/
lemma edgeCross_self (lat lon : ℚ) (v w : ℚ × ℚ) (h : v.2 = w.2) :
    edgeCross lat lon (v, w) = false := by
  simp [edgeCross, h]

/-- The crossing test does not depend on the orientation of the edge:
the guard is symmetric and inside the guard the two line-intersection
expressions agree (the ordinates differ, so the divisions are exact). -/
lemma edgeCross_swap (lat lon : ℚ) (a b : ℚ × ℚ) :
    edgeCross lat lon (a, b) = edgeCross lat lon (b, a) := by
  by_cases h : a.2 = b.2
  · rw [edgeCross_self lat lon a b h, edgeCross_self lat lon b a h.symm]
  · have h3 : a.2 - b.2 ≠ 0 := sub_ne_zero.mpr h
    have h2 : b.2 - a.2 ≠ 0 := sub_ne_zero.mpr (fun hh => h hh.symm)
    have hline : (a.1 - b.1) * (lat - b.2) / (a.2 - b.2) + b.1
        = (b.1 - a.1) * (lat - a.2) / (b.2 - a.2) + a.1 := by
      field_simp
      ring
    show ((decide (b.2 > lat) != decide (a.2 > lat)) &&
        decide (lon < (a.1 - b.1) * (lat - b.2) / (a.2 - b.2) + b.1))
      = ((decide (a.2 > lat) != decide (b.2 > lat)) &&
        decide (lon < (b.1 - a.1) * (lat - a.2) / (b.2 - a.2) + a.1))
    rw [hline, bne_comm2 (decide (b.2 > lat)) (decide (a.2 > lat))]

lemma getLastD_append_single (x d : β) (l : List β) : (l ++ [x]).getLastD d = x := by
  induction l generalizing d with
  | nil => rfl
  | cons a t ih =>
    rw [List.cons_append, List.getLastD_cons]
    exact ih a

lemma zip_cons_tail_append (a x : β) (cs : List β) :
    (a :: (cs ++ [x])).zip (cs ++ [x]) =
      (a :: cs).zip cs ++ [((a :: cs).getLastD a, x)] := by
  induction cs generalizing a with
  | nil => rfl
  | cons d ds ih =>
    simp only [List.cons_append, List.zip_cons_cons]
    rw [ih d]
    rfl

/-- Closing a ring by repeating its first vertex adds one degenerate edge
(first vertex to itself) and turns the wraparound edge into the final
consecutive edge. -/
lemma ringEdges_closed (c : ℚ × ℚ) (cs : List (ℚ × ℚ)) :
    ringEdges ((c :: cs) ++ [c]) =
      (c, c) :: ((c :: cs).zip cs ++ [((c :: cs).getLastD c, c)]) := by
  show ((c :: (cs ++ [c])).getLastD c, c) :: (c :: (cs ++ [c])).zip (cs ++ [c]) = _
  rw [List.getLastD_cons, getLastD_append_single, zip_cons_tail_append]

lemma rayCast_closed (lat lon : ℚ) (c : ℚ × ℚ) (cs : List (ℚ × ℚ)) :
    rayCastRing lat lon ((c :: cs) ++ [c]) = rayCastRing lat lon (c :: cs) := by
  rw [rayCastRing_eq, rayCastRing_eq, ringEdges_closed]
  rw [show ringEdges (c :: cs) = ((c :: cs).getLastD c, c) :: (c :: cs).zip cs
    from rfl]
  simp only [toggleFold_cons, toggleFold_append, toggleFold_nil,
    edgeCross_self lat lon c c rfl]
  generalize edgeCross lat lon ((c :: cs).getLastD c, c) = x
  generalize toggleFold (edgeCross lat lon) ((c :: cs).zip cs) = y
  cases x <;> cases y <;> rfl

/-- Claim C7 (amended): appending a duplicate of the first vertex as a
closing vertex never changes the pointInPolygon classification of any
query point (the extra edge is degenerate and the wraparound edge becomes
the explicit closing edge); the area function is NOT closure-invariant,
see the counterexample. -/
theorem claimC7_amended_closure_pip (c : ℚ × ℚ) (cs : List (ℚ × ℚ))
    (rest : List (List (ℚ × ℚ))) (lat lon : ℚ) :
    rayCastRing lat lon ((c :: cs) ++ [c]) = rayCastRing lat lon (c :: cs) ∧
    pointInPolygon lat lon ⟨.polygon (((c :: cs) ++ [c]) :: rest)⟩ =
      pointInPolygon lat lon ⟨.polygon ((c :: cs) :: rest)⟩ := by
  refine ⟨rayCast_closed lat lon c cs, ?_⟩
  have h := rayCast_closed lat lon c cs
  rw [List.cons_append] at h
  simp [pointInPolygon, h]

/-- Claim C7 (counterexample): closing the triangle ring
(0,1), (1,0), (2,2) changes the computed area: the open ring sums only
the two consecutive-pair shoelace terms and misses the closing term,
which is nonzero here, so the closed ring yields a different (three times
larger) area. -/
theorem claimC7_counterexample :
    [((0 : ℚ), (1 : ℚ)), (1, 0), (2, 2), (0, 1)] =
      [((0 : ℚ), (1 : ℚ)), (1, 0), (2, 2)] ++ [(0, 1)] ∧
    calculateRingArea [((0 : ℚ), (1 : ℚ)), (1, 0), (2, 2), (0, 1)] ≠
      calculateRingArea [((0 : ℚ), (1 : ℚ)), (1, 0), (2, 2)] := by
  constructor
  · rfl
  · have hC : 0 < Real.cos ((1 : ℝ) * Real.pi / 180) := by
      apply Real.cos_pos_of_mem_Ioo
      constructor
      · have := Real.pi_pos
        nlinarith
      · have := Real.pi_pos
        nlinarith
    have hopen : calculateRingArea [((0 : ℚ), (1 : ℚ)), (1, 0), (2, 2)]
        = |69 * (69 * Real.cos ((1 : ℝ) * Real.pi / 180)) / 2| := by
      simp [calculateRingArea]
      norm_num
      ring_nf
    have hclosed : calculateRingArea [((0 : ℚ), (1 : ℚ)), (1, 0), (2, 2), (0, 1)]
        = |207 * (69 * Real.cos ((1 : ℝ) * Real.pi / 180)) / 2| := by
      simp [calculateRingArea]
      norm_num
      ring_nf
    rw [hopen, hclosed]
    rw [abs_of_pos (by positivity), abs_of_pos (by positivity)]
    intro heq
    nlinarith [hC]

/-- Claim C6 (amended): for degenerate inputs neither function throws and
almost all of the claim holds: the ray cast classifies every point as
outside for any ring with fewer than 3 vertices (hence pointInPolygon is
false for Polygon and MultiPolygon geometries whose tested rings are all
degenerate), both functions return false / 0 on unsupported geometry
kinds, and the area of a ring with at most one vertex is 0.  The original
claim fails only for the area of a 2-vertex ring, which can be positive
(see the counterexample). -/
theorem claimC6_amended_degenerate :
    (∀ (lat lon : ℚ) (coords : List (ℚ × ℚ)), coords.length < 3 →
      rayCastRing lat lon coords = false) ∧
    (∀ (lat lon : ℚ) (rings : List (List (ℚ × ℚ))), (∀ r ∈ rings, r.length < 3) →
      pointInPolygon lat lon ⟨.polygon rings⟩ = false) ∧
    (∀ (lat lon : ℚ) (parts : List (List (List (ℚ × ℚ)))),
      (∀ part ∈ parts, (part.headD []).length < 3) →
      pointInPolygon lat lon ⟨.multiPolygon parts⟩ = false) ∧
    (∀ lat lon : ℚ, pointInPolygon lat lon ⟨.other⟩ = false) ∧
    (calculatePolygonArea ⟨.other⟩ = 0) ∧
    (∀ coords : List (ℚ × ℚ), coords.length ≤ 1 → calculateRingArea coords = 0) := by
  have hray : ∀ (lat lon : ℚ) (coords : List (ℚ × ℚ)), coords.length < 3 →
      rayCastRing lat lon coords = false := by
    intro lat lon coords h
    match coords with
    | [] => rfl
    | [v] =>
      rw [rayCastRing_eq]
      rw [show ringEdges [v] = [(v, v)] from rfl]
      rw [toggleFold_cons, toggleFold_nil, edgeCross_self lat lon v v rfl]
      rfl
    | [u, v] =>
      rw [rayCastRing_eq]
      rw [show ringEdges [u, v] = [(v, u), (u, v)] from rfl]
      rw [toggleFold_cons, toggleFold_cons, toggleFold_nil,
        edgeCross_swap lat lon v u]
      rw [bne_false2, bne_self2]
    | a :: b :: d :: t => simp at h; omega
  refine ⟨hray, ?_, ?_, ?_, rfl, ?_⟩
  · intro lat lon rings h
    cases rings with
    | nil => rfl
    | cons r rest =>
      have : rayCastRing lat lon r = false := hray lat lon r (h r (by simp))
      simp [pointInPolygon, this]
  · intro lat lon parts h
    rw [pointInPolygon]
    rw [List.any_eq_false]
    intro r hr
    obtain ⟨part, hpart, rfl⟩ := List.mem_map.mp hr
    simpa using hray lat lon (part.headD []) (h part hpart)
  · intro lat lon
    rfl
  · intro coords h
    match coords with
    | [] => simp [calculateRingArea]
    | [v] => simp [calculateRingArea]
    | a :: b :: t => simp at h

/-- Claim C6 (counterexample): the degenerate 2-vertex ring from (1, 0)
to (0, 1) has fewer than 3 vertices, yet the polygon area function
returns a positive value for it (one shoelace term survives), not 0. -/
theorem claimC6_counterexample :
    ([((1 : ℚ), (0 : ℚ)), (0, 1)].length < 3) ∧
    calculatePolygonArea ⟨.polygon [[((1 : ℚ), (0 : ℚ)), (0, 1)]]⟩ ≠ 0 := by
  constructor
  · decide
  · have hC : 0 < Real.cos ((1 / 2 : ℝ) * Real.pi / 180) := by
      apply Real.cos_pos_of_mem_Ioo
      constructor
      · have := Real.pi_pos
        nlinarith
      · have := Real.pi_pos
        nlinarith
    have harea : calculatePolygonArea ⟨.polygon [[((1 : ℚ), (0 : ℚ)), (0, 1)]]⟩
        = |69 * (69 * Real.cos ((1 / 2 : ℝ) * Real.pi / 180)) / 2| := by
      rw [calculatePolygonArea]
      simp [calculateRingArea]
      norm_num
      ring_nf
    rw [harea]
    rw [abs_of_pos (by positivity)]
    positivity

/-- Witness for the amended claim C6: concrete degenerate inputs for each
guarded statement. -/
theorem claimC6_amended_degenerate_witness :
    (([((0 : ℚ), (0 : ℚ)), (2, 3)].length < 3) ∧
      rayCastRing 1 1 [((0 : ℚ), (0 : ℚ)), (2, 3)] = false) ∧
    ((∀ r ∈ [[((0 : ℚ), (0 : ℚ)), (2, 3)]], r.length < 3) ∧
      pointInPolygon 1 1 ⟨.polygon [[((0 : ℚ), (0 : ℚ)), (2, 3)]]⟩ = false) ∧
    ((∀ part ∈ [[[((0 : ℚ), (0 : ℚ))]]], (part.headD []).length < 3) ∧
      pointInPolygon 1 1 ⟨.multiPolygon [[[((0 : ℚ), (0 : ℚ))]]]⟩ = false) ∧
    pointInPolygon 1 1 ⟨.other⟩ = false ∧
    calculatePolygonArea ⟨.other⟩ = 0 ∧
    ((([((7 : ℚ), (8 : ℚ))] : List (ℚ × ℚ)).length ≤ 1) ∧
      calculateRingArea [((7 : ℚ), (8 : ℚ))] = 0) :=
  ⟨⟨by decide, claimC6_amended_degenerate.1 1 1 _ (by decide)⟩,
   ⟨by decide, claimC6_amended_degenerate.2.1 1 1 _ (by decide)⟩,
   ⟨by decide, claimC6_amended_degenerate.2.2.1 1 1 _ (by decide)⟩,
   claimC6_amended_degenerate.2.2.2.1 1 1,
   claimC6_amended_degenerate.2.2.2.2.1,
   ⟨by decide, claimC6_amended_degenerate.2.2.2.2.2 _ (by decide)⟩⟩

/- ------------------------------------------------------------------ -/
/- Grid search: the best-candidate scan and the ring loop.             -/
/- ------------------------------------------------------------------ -/

lemma bestScan_snd_le_acc (lat lon : ℚ) (acc : Option (GPoint α) × EReal)
    (l : List (GPoint α)) : (bestScan lat lon acc l).2 ≤ acc.2 := by
  induction l generalizing acc with
  | nil => simp [bestScan]
  | cons p ps ih =>
    simp only [bestScan]
    by_cases h : ((haversineDistance lat lon p.lat p.lon : ℝ) : EReal) < acc.2
    · rw [if_pos h]
      exact le_trans (ih _) (le_of_lt h)
    · rw [if_neg h]
      exact ih acc

lemma bestScan_snd_le_mem (lat lon : ℚ) (acc : Option (GPoint α) × EReal)
    (l : List (GPoint α)) :
    ∀ q ∈ l, (bestScan lat lon acc l).2 ≤
      ((haversineDistance lat lon q.lat q.lon : ℝ) : EReal) := by
  induction l generalizing acc with
  | nil => intro q hq; exact absurd hq (List.not_mem_nil q)
  | cons p ps ih =>
    intro q hq
    simp only [bestScan]
    by_cases h : ((haversineDistance lat lon p.lat p.lon : ℝ) : EReal) < acc.2
    · rw [if_pos h]
      rcases List.mem_cons.mp hq with rfl | hq2
      · exact bestScan_snd_le_acc lat lon _ ps
      · exact ih _ q hq2
    · rw [if_neg h]
      rcases List.mem_cons.mp hq with rfl | hq2
      · exact le_trans (bestScan_snd_le_acc lat lon acc ps) (not_lt.mp h)
      · exact ih acc q hq2

lemma bestScan_attains (lat lon : ℚ) (acc : Option (GPoint α) × EReal)
    (l : List (GPoint α)) :
    bestScan lat lon acc l = acc ∨
      ∃ p ∈ l, bestScan lat lon acc l =
        (some p, ((haversineDistance lat lon p.lat p.lon : ℝ) : EReal)) := by
  induction l generalizing acc with
  | nil => left; rfl
  | cons p ps ih =>
    simp only [bestScan]
    by_cases h : ((haversineDistance lat lon p.lat p.lon : ℝ) : EReal) < acc.2
    · rw [if_pos h]
      rcases ih (some p, ((haversineDistance lat lon p.lat p.lon : ℝ) : EReal)) with
        heq | ⟨q, hq, heq⟩
      · right; exact ⟨p, by simp, heq⟩
      · right; exact ⟨q, by simp [hq], heq⟩
    · rw [if_neg h]
      rcases ih acc with heq | ⟨q, hq, heq⟩
      · left; exact heq
      · right; exact ⟨q, by simp [hq], heq⟩

/-- The scan over a non-empty candidate list returns some candidate of
minimum haversine distance, with that distance. -/
lemma bestScan_spec (lat lon : ℚ) (l : List (GPoint α)) (hne : l ≠ []) :
    ∃ p ∈ l, bestScan lat lon (none, ⊤) l =
        (some p, ((haversineDistance lat lon p.lat p.lon : ℝ) : EReal)) ∧
      ∀ q ∈ l, ((haversineDistance lat lon p.lat p.lon : ℝ) : EReal) ≤
        ((haversineDistance lat lon q.lat q.lon : ℝ) : EReal) := by
  rcases bestScan_attains lat lon (none, ⊤) l with heq | ⟨p, hp, heq⟩
  · exfalso
    obtain ⟨p0, hp0⟩ : ∃ x, x ∈ l := List.exists_mem_of_ne_nil l hne
    have h1 := bestScan_snd_le_mem lat lon (none, ⊤) l p0 hp0
    rw [heq] at h1
    exact absurd (top_le_iff.mp h1) (EReal.coe_ne_top _)
  · refine ⟨p, hp, heq, fun q hq => ?_⟩
    have h1 := bestScan_snd_le_mem lat lon (none, ⊤) l q hq
    rw [heq] at h1
    exact h1

/-- If every radius tried within the fuel budget has an empty candidate
block, the ring loop returns (null, Infinity). -/
lemma findNearestLoop_empty_all (g : SpatialGrid α) (lat lon : ℚ) (r fuel : ℕ)
    (h : ∀ k, k < fuel → g.getNearbyPoints lat lon (r + k) = []) :
    findNearestLoop g lat lon r fuel = (none, ⊤) := by
  induction fuel generalizing r with
  | zero => rfl
  | succ n ih =>
    rw [findNearestLoop]
    have h0 : g.getNearbyPoints lat lon r = [] := by simpa using h 0 (by omega)
    simp only [h0, List.isEmpty_nil, if_true]
    apply ih
    intro k hk
    have := h (k + 1) (by omega)
    rwa [show r + (k + 1) = r + 1 + k from by omega] at this

/-- The ring loop stops at the first radius with a non-empty candidate
block and returns the scan over that block. -/
lemma findNearestLoop_first_nonempty (g : SpatialGrid α) (lat lon : ℚ)
    (r fuel k : ℕ) (hk : k < fuel)
    (hbefore : ∀ j, j < k → g.getNearbyPoints lat lon (r + j) = [])
    (hne : g.getNearbyPoints lat lon (r + k) ≠ []) :
    findNearestLoop g lat lon r fuel =
      bestScan lat lon (none, ⊤) (g.getNearbyPoints lat lon (r + k)) := by
  induction fuel generalizing r k with
  | zero => omega
  | succ n ih =>
    rw [findNearestLoop]
    by_cases h0 : g.getNearbyPoints lat lon r = []
    · cases k with
      | zero => exact absurd (by simpa using h0) hne
      | succ m =>
        simp only [h0, List.isEmpty_nil, if_true]
        have := ih (r + 1) m (by omega) ?_ ?_
        · rwa [show r + 1 + m = r + (m + 1) from by omega] at this
        · intro j hj
          have := hbefore (j + 1) (by omega)
          rwa [show r + (j + 1) = r + 1 + j from by omega] at this
        · rwa [show r + 1 + m = r + (m + 1) from by omega]
    · cases k with
      | succ m => exact absurd (by simpa using hbefore 0 (by omega)) h0
      | zero =>
        have hne0 : (g.getNearbyPoints lat lon r).isEmpty = false := by
          simpa [List.isEmpty_iff] using h0
        simp [hne0]

open Classical in
/-- Claim C4: for every index state and query, findNearest either finds a
first radius in 1..20 with a non-empty (2r+1)^2 candidate block and
returns a candidate of minimum exact haversine distance together with
that distance, or every radius up to 20 is empty (in particular when the
index is empty) and it returns (null, Infinity) without error. -/
theorem claimC4_findNearest_spec (g : SpatialGrid α) (lat lon : ℚ) :
    (∃ r, 1 ≤ r ∧ r ≤ 20 ∧ g.getNearbyPoints lat lon r ≠ [] ∧
      (∀ r2, 1 ≤ r2 → r2 < r → g.getNearbyPoints lat lon r2 = []) ∧
      ∃ p, p ∈ g.getNearbyPoints lat lon r ∧
        g.findNearest lat lon =
          (some p, ((haversineDistance lat lon p.lat p.lon : ℝ) : EReal)) ∧
        ∀ q ∈ g.getNearbyPoints lat lon r,
          ((haversineDistance lat lon p.lat p.lon : ℝ) : EReal) ≤
            ((haversineDistance lat lon q.lat q.lon : ℝ) : EReal)) ∨
    ((∀ r, 1 ≤ r → r ≤ 20 → g.getNearbyPoints lat lon r = []) ∧
      g.findNearest lat lon = (none, ⊤)) := by
  by_cases hall : ∀ r, 1 ≤ r → r ≤ 20 → g.getNearbyPoints lat lon r = []
  · right
    refine ⟨hall, ?_⟩
    rw [SpatialGrid.findNearest]
    apply findNearestLoop_empty_all
    intro k hk
    exact hall (1 + k) (by omega) (by omega)
  · left
    push_neg at hall
    obtain ⟨r, h1r, hr20, hrne⟩ := hall
    have hex : ∃ r2, 1 ≤ r2 ∧ r2 ≤ 20 ∧ g.getNearbyPoints lat lon r2 ≠ [] :=
      ⟨r, h1r, hr20, hrne⟩
    obtain ⟨h1r0, hr020, hr0ne⟩ := Nat.find_spec hex
    have hmin : ∀ r2, 1 ≤ r2 → r2 < Nat.find hex → g.getNearbyPoints lat lon r2 = [] := by
      intro r2 h2 hlt
      by_contra hne2
      exact absurd hlt (not_lt.mpr (Nat.find_min' hex ⟨h2, by omega, hne2⟩))
    refine ⟨Nat.find hex, h1r0, hr020, hr0ne, hmin, ?_⟩
    have hloop : g.findNearest lat lon =
        bestScan lat lon (none, ⊤) (g.getNearbyPoints lat lon (Nat.find hex)) := by
      rw [SpatialGrid.findNearest]
      have := findNearestLoop_first_nonempty g lat lon 1 20 (Nat.find hex - 1)
        (by omega) ?_ ?_
      · rwa [show 1 + (Nat.find hex - 1) = Nat.find hex from by omega] at this
      · intro j hj
        exact hmin (1 + j) (by omega) (by omega)
      · rw [show 1 + (Nat.find hex - 1) = Nat.find hex from by omega]
        exact hr0ne
    obtain ⟨p, hp, heq, hmin2⟩ := bestScan_spec lat lon _ hr0ne
    refine ⟨p, hp, ?_, hmin2⟩
    rw [hloop, heq]

/-- Witness for claim C4: the characterization applied to the concrete
empty hydrant grid at the origin query. -/
theorem claimC4_findNearest_spec_witness :
    (∃ r, 1 ≤ r ∧ r ≤ 20 ∧ hg0.getNearbyPoints 0 0 r ≠ [] ∧
      (∀ r2, 1 ≤ r2 → r2 < r → hg0.getNearbyPoints 0 0 r2 = []) ∧
      ∃ p, p ∈ hg0.getNearbyPoints 0 0 r ∧
        hg0.findNearest 0 0 =
          (some p, ((haversineDistance 0 0 p.lat p.lon : ℝ) : EReal)) ∧
        ∀ q ∈ hg0.getNearbyPoints 0 0 r,
          ((haversineDistance 0 0 p.lat p.lon : ℝ) : EReal) ≤
            ((haversineDistance 0 0 q.lat q.lon : ℝ) : EReal)) ∨
    ((∀ r, 1 ≤ r → r ≤ 20 → hg0.getNearbyPoints 0 0 r = []) ∧
      hg0.findNearest 0 0 = (none, ⊤)) :=
  claimC4_findNearest_spec hg0 0 0

/- ------------------------------------------------------------------ -/
/- Membership structure of the candidate blocks.                       -/
/- ------------------------------------------------------------------ -/

lemma mem_intRange {r : ℕ} {x : ℤ} : x ∈ intRange r ↔ -(r : ℤ) ≤ x ∧ x ≤ r := by
  rw [intRange, List.mem_map]
  constructor
  · rintro ⟨i, hi, hx2⟩
    have hi2 := List.mem_range.mp hi
    have hx3 : (i : ℤ) - r = x := hx2
    omega
  · rintro ⟨h1, h2⟩
    refine ⟨(x + r).toNat, List.mem_range.mpr (by omega), ?_⟩
    show ((x + r).toNat : ℤ) - r = x
    omega

lemma mem_getNearbyPoints {g : SpatialGrid α} {lat lon : ℚ} {r : ℕ} {x : GPoint α} :
    x ∈ g.getNearbyPoints lat lon r ↔
      x ∈ g.allPoints ∧
        g.getCell x.lat x.lon ∈ blockCells ⌊lon / g.cellSize⌋ ⌊lat / g.cellSize⌋ r := by
  simp only [SpatialGrid.getNearbyPoints, SpatialGrid.bucket, List.mem_flatMap,
    List.mem_filter, decide_eq_true_eq]
  constructor
  · rintro ⟨c, hc, hx, hcell⟩
    exact ⟨hx, hcell ▸ hc⟩
  · rintro ⟨hx, hc⟩
    exact ⟨g.getCell x.lat x.lon, hc, hx, rfl⟩

/-- Cells agree between two grids of the same cell size. -/
lemma getCell_congr {g1 g2 : SpatialGrid α} (hsize : g1.cellSize = g2.cellSize)
    (la lo : ℚ) : g1.getCell la lo = g2.getCell la lo := by
  simp [SpatialGrid.getCell, hsize]

lemma getNearby_mem_congr {g1 g2 : SpatialGrid α} (hsize : g1.cellSize = g2.cellSize)
    (hpts : ∀ x, x ∈ g1.allPoints ↔ x ∈ g2.allPoints) (lat lon : ℚ) (r : ℕ) :
    ∀ x, x ∈ g1.getNearbyPoints lat lon r ↔ x ∈ g2.getNearbyPoints lat lon r := by
  intro x
  rw [mem_getNearbyPoints, mem_getNearbyPoints, hpts x,
    getCell_congr hsize x.lat x.lon, hsize]

/-- Two non-empty candidate lists with the same members have the same
minimum scan distance. -/
lemma bestScan_snd_eq_of_mem_iff (lat lon : ℚ) (l1 l2 : List (GPoint α))
    (h : ∀ x, x ∈ l1 ↔ x ∈ l2) (h1 : l1 ≠ []) :
    (bestScan lat lon (none, ⊤) l1).2 = (bestScan lat lon (none, ⊤) l2).2 := by
  have h2 : l2 ≠ [] := by
    obtain ⟨p0, hp0⟩ := List.exists_mem_of_ne_nil l1 h1
    exact List.ne_nil_of_mem ((h p0).mp hp0)
  obtain ⟨p1, hp1, heq1, hmin1⟩ := bestScan_spec lat lon l1 h1
  obtain ⟨p2, hp2, heq2, hmin2⟩ := bestScan_spec lat lon l2 h2
  rw [heq1, heq2]
  exact le_antisymm (hmin1 p2 ((h p2).mpr hp2)) (hmin2 p1 ((h p1).mp hp1))

/-- The returned distance of the ring loop depends only on the member set
of the index (same cell size), not on insertion order. -/
lemma findNearestLoop_snd_congr {g1 g2 : SpatialGrid α}
    (hsize : g1.cellSize = g2.cellSize)
    (hpts : ∀ x, x ∈ g1.allPoints ↔ x ∈ g2.allPoints) (lat lon : ℚ) :
    ∀ (fuel r : ℕ),
      (findNearestLoop g1 lat lon r fuel).2 = (findNearestLoop g2 lat lon r fuel).2 := by
  intro fuel
  induction fuel with
  | zero => intro r; rfl
  | succ n ih =>
    intro r
    rw [findNearestLoop, findNearestLoop]
    have hmem := getNearby_mem_congr hsize hpts lat lon r
    by_cases hemp : g1.getNearbyPoints lat lon r = []
    · have hemp2 : g2.getNearbyPoints lat lon r = [] := by
        rw [List.eq_nil_iff_forall_not_mem]
        intro x hx
        rw [List.eq_nil_iff_forall_not_mem] at hemp
        exact hemp x ((hmem x).mpr hx)
      simp only [hemp, hemp2, List.isEmpty_nil, if_true]
      exact ih (r + 1)
    · have hemp2 : g2.getNearbyPoints lat lon r ≠ [] := by
        intro hnil
        apply hemp
        rw [List.eq_nil_iff_forall_not_mem]
        intro x hx
        rw [List.eq_nil_iff_forall_not_mem] at hnil
        exact hnil x ((hmem x).mp hx)
      have he1 : (g1.getNearbyPoints lat lon r).isEmpty = false := by
        simpa [List.isEmpty_iff] using hemp
      have he2 : (g2.getNearbyPoints lat lon r).isEmpty = false := by
        simpa [List.isEmpty_iff] using hemp2
      simp only [he1, he2]
      rw [if_neg (by simp), if_neg (by simp)]
      exact bestScan_snd_eq_of_mem_iff lat lon _ _ hmem hemp

/-- Inserting a list of points into a grid appends them to allPoints in
order and keeps the cell size. -/
lemma foldl_insert_allPoints (l : List (GPoint α)) (g : SpatialGrid α) :
    (l.foldl (fun g2 p => g2.insert p.lat p.lon p.data) g).allPoints =
      g.allPoints ++ l := by
  induction l generalizing g with
  | nil => simp
  | cons p ps ih =>
    simp only [List.foldl_cons]
    rw [ih]
    simp [SpatialGrid.insert]

lemma foldl_insert_cellSize (l : List (GPoint α)) (g : SpatialGrid α) :
    (l.foldl (fun g2 p => g2.insert p.lat p.lon p.data) g).cellSize = g.cellSize := by
  induction l generalizing g with
  | nil => rfl
  | cons p ps ih =>
    simp only [List.foldl_cons]
    rw [ih]
    rfl

/-- Claim C8 (amended): inserting the same points in any two orders into
freshly cleared indexes of the same fixed cell size yields the same
findNearest DISTANCE for every query; the returned point itself can
differ between orders when two points are exactly equidistant from the
query (see the counterexample). -/
theorem claimC8_amended_perm_distance (cellSize : ℚ) (l1 l2 : List (GPoint α))
    (h : l1.Perm l2) (lat lon : ℚ) :
    ((l1.foldl (fun g2 p => g2.insert p.lat p.lon p.data)
        (SpatialGrid.mkEmpty α cellSize)).findNearest lat lon).2 =
    ((l2.foldl (fun g2 p => g2.insert p.lat p.lon p.data)
        (SpatialGrid.mkEmpty α cellSize)).findNearest lat lon).2 := by
  apply findNearestLoop_snd_congr
  · rw [foldl_insert_cellSize, foldl_insert_cellSize]
  · intro x
    rw [foldl_insert_allPoints, foldl_insert_allPoints]
    simp only [SpatialGrid.mkEmpty, List.nil_append]
    exact ⟨fun hx => h.mem_iff.mp hx, fun hx => h.mem_iff.mpr hx⟩

/-- Witness for the amended claim C8: a transposition of two concrete
points yields the same findNearest distance. -/
theorem claimC8_amended_perm_distance_witness :
    ([⟨1, 2, none⟩, ⟨3, 4, none⟩] : List (GPoint Unit)).Perm
      [⟨3, 4, none⟩, ⟨1, 2, none⟩] ∧
    ((([⟨1, 2, none⟩, ⟨3, 4, none⟩] : List (GPoint Unit)).foldl
        (fun g2 p => g2.insert p.lat p.lon p.data)
        (SpatialGrid.mkEmpty Unit 1)).findNearest 0 0).2 =
    ((([⟨3, 4, none⟩, ⟨1, 2, none⟩] : List (GPoint Unit)).foldl
        (fun g2 p => g2.insert p.lat p.lon p.data)
        (SpatialGrid.mkEmpty Unit 1)).findNearest 0 0).2 :=
  ⟨List.Perm.swap _ _ _,
    claimC8_amended_perm_distance 1 _ _ (List.Perm.swap _ _ _) 0 0⟩

/- ------------------------------------------------------------------ -/
/- Analytic form of the haversine distance.                            -/
/- ------------------------------------------------------------------ -/

lemma atan2_pos_den (y x : ℝ) (hx : 0 < x) : atan2 y x = Real.arctan (y / x) := by
  rw [atan2, if_pos hx]

/-- When the haversine intermediate value a is below 1, the distance is
R times twice the arctangent of sqrt a over sqrt (1 - a). -/
lemma haversine_arctan_form (lat1 lon1 lat2 lon2 : ℚ) (A : ℝ)
    (hA : A = Real.sin (((lat2 - lat1 : ℚ) : ℝ) * Real.pi / 180 / 2) *
        Real.sin (((lat2 - lat1 : ℚ) : ℝ) * Real.pi / 180 / 2) +
      Real.cos ((lat1 : ℝ) * Real.pi / 180) * Real.cos ((lat2 : ℝ) * Real.pi / 180) *
        (Real.sin (((lon2 - lon1 : ℚ) : ℝ) * Real.pi / 180 / 2) *
          Real.sin (((lon2 - lon1 : ℚ) : ℝ) * Real.pi / 180 / 2)))
    (h1 : A < 1) :
    haversineDistance lat1 lon1 lat2 lon2 =
      earthRadiusFeet * (2 * Real.arctan (Real.sqrt A / Real.sqrt (1 - A))) := by
  simp only [haversineDistance]
  rw [← hA, atan2_pos_den _ _ (Real.sqrt_pos.mpr (by linarith))]

/-- Strict monotonicity of the distance in the haversine intermediate
value, on the interval where the arctangent form applies. -/
lemma haversine_arctan_lt (aB aA : ℝ) (h0 : 0 ≤ aB) (hlt : aB < aA) (h1 : aA < 1) :
    earthRadiusFeet * (2 * Real.arctan (Real.sqrt aB / Real.sqrt (1 - aB))) <
      earthRadiusFeet * (2 * Real.arctan (Real.sqrt aA / Real.sqrt (1 - aA))) := by
  have hdA : 0 < Real.sqrt (1 - aA) := Real.sqrt_pos.mpr (by linarith)
  have hfrac : Real.sqrt aB / Real.sqrt (1 - aB) < Real.sqrt aA / Real.sqrt (1 - aA) := by
    have hsn : Real.sqrt aB < Real.sqrt aA := Real.sqrt_lt_sqrt h0 hlt
    have hsd : Real.sqrt (1 - aA) ≤ Real.sqrt (1 - aB) := Real.sqrt_le_sqrt (by linarith)
    calc Real.sqrt aB / Real.sqrt (1 - aB) ≤ Real.sqrt aB / Real.sqrt (1 - aA) := by
          gcongr
      _ < Real.sqrt aA / Real.sqrt (1 - aA) := by gcongr
  have harctan : Real.arctan (Real.sqrt aB / Real.sqrt (1 - aB)) <
      Real.arctan (Real.sqrt aA / Real.sqrt (1 - aA)) := Real.arctan_strictMono hfrac
  have hR : (0 : ℝ) < earthRadiusFeet := by norm_num [earthRadiusFeet]
  nlinarith [harctan]

/-- Claim C5 (counterexample): the two distinct coordinate pairs
(90, 0) and (90, 180) — both at the north pole — have haversine distance
exactly 0, so zero distance does not imply coordinate-identical points. -/
theorem claimC5_counterexample :
    haversineDistance 90 0 90 180 = 0 ∧
      ((90 : ℚ), (0 : ℚ)) ≠ ((90 : ℚ), (180 : ℚ)) := by
  constructor
  · have hA0 : (0 : ℝ) = Real.sin (((90 - 90 : ℚ) : ℝ) * Real.pi / 180 / 2) *
        Real.sin (((90 - 90 : ℚ) : ℝ) * Real.pi / 180 / 2) +
        Real.cos (((90 : ℚ) : ℝ) * Real.pi / 180) *
          Real.cos (((90 : ℚ) : ℝ) * Real.pi / 180) *
          (Real.sin (((180 - 0 : ℚ) : ℝ) * Real.pi / 180 / 2) *
            Real.sin (((180 - 0 : ℚ) : ℝ) * Real.pi / 180 / 2)) := by
      rw [show ((90 - 90 : ℚ) : ℝ) = 0 by norm_num,
        show (((90 : ℚ)) : ℝ) = 90 by norm_num]
      rw [show (0 : ℝ) * Real.pi / 180 / 2 = 0 by ring, Real.sin_zero]
      rw [show (90 : ℝ) * Real.pi / 180 = Real.pi / 2 by ring, Real.cos_pi_div_two]
      ring
    have hform := haversine_arctan_form 90 0 90 180 0 hA0 (by norm_num)
    rw [hform]
    rw [Real.sqrt_zero, zero_div, Real.arctan_zero]
    ring
  · decide

/-- Claim C5 (amended): coordinate-identical points do have distance 0;
the converse fails (see the counterexample at the pole). -/
theorem claimC5_amended_identity_zero (lat lon : ℚ) :
    haversineDistance lat lon lat lon = 0 := by
  have hA0 : (0 : ℝ) = Real.sin (((lat - lat : ℚ) : ℝ) * Real.pi / 180 / 2) *
      Real.sin (((lat - lat : ℚ) : ℝ) * Real.pi / 180 / 2) +
      Real.cos ((lat : ℝ) * Real.pi / 180) * Real.cos ((lat : ℝ) * Real.pi / 180) *
        (Real.sin (((lon - lon : ℚ) : ℝ) * Real.pi / 180 / 2) *
          Real.sin (((lon - lon : ℚ) : ℝ) * Real.pi / 180 / 2)) := by
    rw [show ((lat - lat : ℚ) : ℝ) = 0 by push_cast; ring,
      show ((lon - lon : ℚ) : ℝ) = 0 by push_cast; ring]
    rw [show (0 : ℝ) * Real.pi / 180 / 2 = 0 by ring, Real.sin_zero]
    ring
  have hform := haversine_arctan_form lat lon lat lon 0 hA0 (by norm_num)
  rw [hform]
  rw [Real.sqrt_zero, zero_div, Real.arctan_zero]
  ring

/- ------------------------------------------------------------------ -/
/- The loop stops at radius 1 when it already has candidates.          -/
/- ------------------------------------------------------------------ -/

lemma findNearest_eval_radius1 (g : SpatialGrid α) (lat lon : ℚ)
    (hne : g.getNearbyPoints lat lon 1 ≠ []) :
    g.findNearest lat lon = bestScan lat lon (none, ⊤) (g.getNearbyPoints lat lon 1) := by
  rw [SpatialGrid.findNearest]
  have := findNearestLoop_first_nonempty g lat lon 1 20 0 (by omega)
    (fun j hj => absurd hj (by omega)) (by simpa using hne)
  simpa using this

/-- Claim C2 (amended): findNearest is equivalent to a brute-force scan
over the whole point set whenever every inserted point lies in the
radius-1 cell block around the query cell (and the index is non-empty);
the blanket equivalence of the original claim fails, see the
counterexample, where a closer point sits just outside the first
non-empty ring. -/
theorem claimC2_amended_block_bruteforce (g : SpatialGrid α) (lat lon : ℚ)
    (hne : g.allPoints ≠ [])
    (hblock : ∀ p ∈ g.allPoints,
      g.getCell p.lat p.lon ∈ blockCells ⌊lon / g.cellSize⌋ ⌊lat / g.cellSize⌋ 1) :
    ∃ p ∈ g.allPoints,
      g.findNearest lat lon =
        (some p, ((haversineDistance lat lon p.lat p.lon : ℝ) : EReal)) ∧
      ∀ q ∈ g.allPoints,
        ((haversineDistance lat lon p.lat p.lon : ℝ) : EReal) ≤
          ((haversineDistance lat lon q.lat q.lon : ℝ) : EReal) := by
  have hmem : ∀ x, x ∈ g.getNearbyPoints lat lon 1 ↔ x ∈ g.allPoints := by
    intro x
    rw [mem_getNearbyPoints]
    exact ⟨fun h2 => h2.1, fun h1 => ⟨h1, hblock x h1⟩⟩
  have hne1 : g.getNearbyPoints lat lon 1 ≠ [] := by
    obtain ⟨p0, hp0⟩ := List.exists_mem_of_ne_nil g.allPoints hne
    exact List.ne_nil_of_mem ((hmem p0).mpr hp0)
  obtain ⟨p, hp, heq, hmin⟩ := bestScan_spec lat lon _ hne1
  refine ⟨p, (hmem p).mp hp, ?_, fun q hq => hmin q ((hmem q).mpr hq)⟩
  rw [findNearest_eval_radius1 g lat lon hne1, heq]

/-- A concrete one-point grid for the amended C2 witness. -/
def gC2w : SpatialGrid Unit := (SpatialGrid.mkEmpty Unit 1).insert (1/2) (1/2) none

/-- Witness for the amended claim C2: on a one-point grid whose point
lies in the radius-1 block of the query, findNearest is the brute-force
minimum. -/
theorem claimC2_amended_block_bruteforce_witness :
    (gC2w.allPoints ≠ [] ∧
      ∀ p ∈ gC2w.allPoints,
        gC2w.getCell p.lat p.lon ∈
          blockCells ⌊(1/2 : ℚ) / gC2w.cellSize⌋ ⌊(1/2 : ℚ) / gC2w.cellSize⌋ 1) ∧
    (∃ p ∈ gC2w.allPoints,
      gC2w.findNearest (1/2) (1/2) =
        (some p, ((haversineDistance (1/2) (1/2) p.lat p.lon : ℝ) : EReal)) ∧
      ∀ q ∈ gC2w.allPoints,
        ((haversineDistance (1/2) (1/2) p.lat p.lon : ℝ) : EReal) ≤
          ((haversineDistance (1/2) (1/2) q.lat q.lon : ℝ) : EReal)) := by
  have hne : gC2w.allPoints ≠ [] := by decide
  have hblock : ∀ p ∈ gC2w.allPoints,
      gC2w.getCell p.lat p.lon ∈
        blockCells ⌊(1/2 : ℚ) / gC2w.cellSize⌋ ⌊(1/2 : ℚ) / gC2w.cellSize⌋ 1 := by
    intro p hp
    have hp2 : p = (⟨1/2, 1/2, none⟩ : GPoint Unit) := by
      simpa [gC2w, SpatialGrid.mkEmpty, SpatialGrid.insert] using hp
    subst hp2
    simp only [gC2w, SpatialGrid.insert, SpatialGrid.mkEmpty, SpatialGrid.getCell]
    norm_num
    decide
  exact ⟨⟨hne, hblock⟩,
    claimC2_amended_block_bruteforce gC2w (1/2) (1/2) hne hblock⟩

/- ------------------------------------------------------------------ -/
/- Concrete evaluations of findNearest.                                -/
/- ------------------------------------------------------------------ -/

lemma bestScan_single (lat lon : ℚ) (p : GPoint α) :
    bestScan lat lon (none, ⊤) [p] =
      (some p, ((haversineDistance lat lon p.lat p.lon : ℝ) : EReal)) := by
  simp only [bestScan]
  rw [if_pos (show ((haversineDistance lat lon p.lat p.lon : ℝ) : EReal) <
    ((none : Option (GPoint α)), (⊤ : EReal)).2 from EReal.coe_lt_top _)]

/-- With two exactly equidistant candidates the scan keeps the first. -/
lemma bestScan_pair_tie (lat lon : ℚ) (p q : GPoint α)
    (h : haversineDistance lat lon q.lat q.lon = haversineDistance lat lon p.lat p.lon) :
    bestScan lat lon (none, ⊤) [p, q] =
      (some p, ((haversineDistance lat lon p.lat p.lon : ℝ) : EReal)) := by
  simp only [bestScan]
  rw [if_pos (show ((haversineDistance lat lon p.lat p.lon : ℝ) : EReal) <
    ((none : Option (GPoint α)), (⊤ : EReal)).2 from EReal.coe_lt_top _)]
  rw [if_neg (show ¬ ((haversineDistance lat lon q.lat q.lon : ℝ) : EReal) <
    ((some p, ((haversineDistance lat lon p.lat p.lon : ℝ) : EReal)) :
      Option (GPoint α) × EReal).2 from by simp [h])]

/-- The haversine distance along a fixed latitude is symmetric in the
sign of the longitude offset. -/
lemma haversine_lon_reflect (lat lon d : ℚ) :
    haversineDistance lat lon lat (lon - d) = haversineDistance lat lon lat (lon + d) := by
  simp only [haversineDistance]
  have h1 : ((lon - d - lon : ℚ) : ℝ) = -(((lon + d - lon : ℚ) : ℝ)) := by
    push_cast
    ring
  rw [h1]
  have h2 : -(((lon + d - lon : ℚ) : ℝ)) * Real.pi / 180 / 2 =
      -(((lon + d - lon : ℚ) : ℝ) * Real.pi / 180 / 2) := by ring
  rw [h2, Real.sin_neg]
  ring_nf

/-- The first point inserted in the tie pair. -/
def pA : GPoint Unit := ⟨1/2, 2/5, none⟩

/-- The second point inserted in the tie pair. -/
def pB : GPoint Unit := ⟨1/2, 3/5, none⟩

/-- The tie pair inserted in one order. -/
def gOrder12 : SpatialGrid Unit :=
  ((SpatialGrid.mkEmpty Unit 1).insert (1/2) (2/5) none).insert (1/2) (3/5) none

/-- The tie pair inserted in the other order. -/
def gOrder21 : SpatialGrid Unit :=
  ((SpatialGrid.mkEmpty Unit 1).insert (1/2) (3/5) none).insert (1/2) (2/5) none

/-- Claim C8 (counterexample): the same two points inserted in the two
orders into freshly cleared cellSize-1 indexes; both points are exactly
equidistant from the query (1/2, 1/2), and findNearest returns whichever
was inserted first, so the returned point differs between the orders. -/
theorem claimC8_counterexample :
    gOrder12.allPoints.Perm gOrder21.allPoints ∧
    (gOrder12.findNearest (1/2) (1/2)).1 = some pA ∧
    (gOrder21.findNearest (1/2) (1/2)).1 = some pB ∧
    pA ≠ pB := by
  have htie0 := haversine_lon_reflect (1/2) (1/2) (1/10)
  have htie : haversineDistance (1/2) (1/2) (1/2) (2/5) =
      haversineDistance (1/2) (1/2) (1/2) (3/5) := by
    norm_num at htie0
    exact htie0
  have hIR : intRange 1 = [-1, 0, 1] := by decide
  have hc12 : gOrder12.getNearbyPoints (1/2) (1/2) 1 = [pA, pB] := by
    norm_num [SpatialGrid.getNearbyPoints, SpatialGrid.bucket, blockCells, hIR,
      SpatialGrid.getCell, gOrder12, SpatialGrid.insert, SpatialGrid.mkEmpty,
      List.filter, Prod.ext_iff, pA, pB]
  have hc21 : gOrder21.getNearbyPoints (1/2) (1/2) 1 = [pB, pA] := by
    norm_num [SpatialGrid.getNearbyPoints, SpatialGrid.bucket, blockCells, hIR,
      SpatialGrid.getCell, gOrder21, SpatialGrid.insert, SpatialGrid.mkEmpty,
      List.filter, Prod.ext_iff, pA, pB]
  have h12 : gOrder12.findNearest (1/2) (1/2) =
      (some pA, ((haversineDistance (1/2) (1/2) pA.lat pA.lon : ℝ) : EReal)) := by
    rw [findNearest_eval_radius1 gOrder12 (1/2) (1/2) (by rw [hc12]; simp), hc12]
    exact bestScan_pair_tie (1/2) (1/2) pA pB htie.symm
  have h21 : gOrder21.findNearest (1/2) (1/2) =
      (some pB, ((haversineDistance (1/2) (1/2) pB.lat pB.lon : ℝ) : EReal)) := by
    rw [findNearest_eval_radius1 gOrder21 (1/2) (1/2) (by rw [hc21]; simp), hc21]
    exact bestScan_pair_tie (1/2) (1/2) pB pA htie
  refine ⟨?_, by rw [h12], by rw [h21], by norm_num [pA, pB]⟩
  exact List.Perm.swap pB pA []

/-- The grid of the C2 counterexample: point A = (1.99, 1.99) in the
diagonal neighbor cell (1, 1) of the query cell, point B = (0.5, 2.0) in
cell (2, 0), outside the radius-1 block but strictly closer to the query
(0.5, 0.5). -/
def gC2cex : SpatialGrid Unit :=
  ((SpatialGrid.mkEmpty Unit 1).insert (199/100) (199/100) none).insert (1/2) 2 none

set_option maxHeartbeats 2000000 in
/-- The numeric heart of the C2 counterexample: the point (0.5, 2.0) is
strictly closer to the query (0.5, 0.5) than the point (1.99, 1.99),
although only the latter lies in the radius-1 cell block. -/
lemma havB_lt_havA_C2 :
    haversineDistance (1/2) (1/2) (1/2) 2 <
      haversineDistance (1/2) (1/2) (199/100) (199/100) := by
  have hπl : (3.14 : ℝ) < Real.pi := Real.pi_gt_d2
  have hπu : Real.pi < 3.15 := Real.pi_lt_d2
  set θB : ℝ := (3/2 : ℝ) * Real.pi / 180 / 2 with hθB
  set θA : ℝ := (149/100 : ℝ) * Real.pi / 180 / 2 with hθA
  set x0 : ℝ := (1/2 : ℝ) * Real.pi / 180 with hx0
  set x2 : ℝ := (199/100 : ℝ) * Real.pi / 180 with hx2
  have hθA_pos : 0 < θA := by rw [hθA]; positivity
  have hθA_lb : (0.0129 : ℝ) ≤ θA := by rw [hθA]; nlinarith
  have hθA_ub : θA ≤ 0.0132 := by rw [hθA]; nlinarith
  have hθB_pos : 0 < θB := by rw [hθB]; positivity
  have hθB_ub : θB ≤ 0.0132 := by rw [hθB]; nlinarith
  have hsB_lt : Real.sin θB < θB := Real.sin_lt hθB_pos
  have hsB_nonneg : 0 ≤ Real.sin θB :=
    Real.sin_nonneg_of_nonneg_of_le_pi (le_of_lt hθB_pos) (by nlinarith)
  have hθA3 : θA ^ 3 ≤ (0.0132 : ℝ) ^ 3 :=
    pow_le_pow_left₀ (le_of_lt hθA_pos) hθA_ub 3
  have hsA_gt : θA - θA ^ 3 / 4 < Real.sin θA :=
    Real.sin_gt_sub_cube hθA_pos (by nlinarith)
  have hsA_lb : (0.0128 : ℝ) ≤ Real.sin θA := by nlinarith
  have hsA_nonneg : (0 : ℝ) ≤ Real.sin θA := by nlinarith
  have hsA_ub : Real.sin θA ≤ θA := le_of_lt (Real.sin_lt hθA_pos)
  have hc0_ub : Real.cos x0 ≤ 1 := Real.cos_le_one x0
  have hc2_ub : Real.cos x2 ≤ 1 := Real.cos_le_one x2
  have hc0_lb0 : 1 - x0 ^ 2 / 2 ≤ Real.cos x0 := Real.one_sub_sq_div_two_le_cos
  have hc2_lb0 : 1 - x2 ^ 2 / 2 ≤ Real.cos x2 := Real.one_sub_sq_div_two_le_cos
  have hx0_lb : (0 : ℝ) ≤ x0 := by rw [hx0]; positivity
  have hx0_ub : x0 ≤ 0.00875 := by rw [hx0]; nlinarith
  have hx2_lb : (0 : ℝ) ≤ x2 := by rw [hx2]; positivity
  have hx2_ub : x2 ≤ 0.035 := by rw [hx2]; nlinarith
  have hx0sq : x0 ^ 2 ≤ (0.00875 : ℝ) ^ 2 := by nlinarith
  have hx2sq : x2 ^ 2 ≤ (0.035 : ℝ) ^ 2 := by nlinarith
  have hc0_lb : (0.99 : ℝ) ≤ Real.cos x0 := by nlinarith
  have hc2_lb : (0.99 : ℝ) ≤ Real.cos x2 := by nlinarith
  set aB : ℝ := Real.cos x0 * Real.cos x0 * (Real.sin θB * Real.sin θB) with haB
  set aA : ℝ := Real.sin θA * Real.sin θA +
    Real.cos x0 * Real.cos x2 * (Real.sin θA * Real.sin θA) with haA
  have hsB2 : Real.sin θB * Real.sin θB ≤ θB * θB := by nlinarith
  have hc02 : Real.cos x0 * Real.cos x0 ≤ 1 := by nlinarith
  have haB_nonneg : 0 ≤ aB := by rw [haB]; nlinarith
  have haB_ub : aB ≤ θB * θB := by rw [haB]; nlinarith
  have hsA2 : (0.0128 : ℝ) ^ 2 ≤ Real.sin θA * Real.sin θA := by nlinarith
  have hcc : (0.98 : ℝ) ≤ Real.cos x0 * Real.cos x2 := by nlinarith
  have haA_lb : (0.00032 : ℝ) ≤ aA := by rw [haA]; nlinarith
  have hsA2ub : Real.sin θA * Real.sin θA ≤ θA * θA := by nlinarith
  have hccub : Real.cos x0 * Real.cos x2 ≤ 1 := by nlinarith
  have haA_ub : aA < 1 := by rw [haA]; nlinarith
  have hlt : aB < aA := by nlinarith
  have hB : haversineDistance (1/2) (1/2) (1/2) 2 =
      earthRadiusFeet * (2 * Real.arctan (Real.sqrt aB / Real.sqrt (1 - aB))) := by
    apply haversine_arctan_form (1/2) (1/2) (1/2) 2 aB ?_ (by nlinarith)
    rw [haB, hθB, hx0]
    rw [show ((1/2 - 1/2 : ℚ) : ℝ) = 0 by norm_num,
      show ((2 - 1/2 : ℚ) : ℝ) = 3/2 by norm_num,
      show (((1 : ℚ)/2 : ℚ) : ℝ) = 1/2 by norm_num]
    rw [show (0 : ℝ) * Real.pi / 180 / 2 = 0 by ring, Real.sin_zero]
    ring
  have hA : haversineDistance (1/2) (1/2) (199/100) (199/100) =
      earthRadiusFeet * (2 * Real.arctan (Real.sqrt aA / Real.sqrt (1 - aA))) := by
    apply haversine_arctan_form (1/2) (1/2) (199/100) (199/100) aA ?_ haA_ub
    rw [haA, hθA, hx0, hx2]
    rw [show ((199/100 - 1/2 : ℚ) : ℝ) = 149/100 by norm_num,
      show (((1 : ℚ)/2 : ℚ) : ℝ) = 1/2 by norm_num,
      show ((199/100 : ℚ) : ℝ) = 199/100 by norm_num]
  rw [hB, hA]
  exact haversine_arctan_lt aB aA haB_nonneg hlt haA_ub

/-- Claim C2 (counterexample): the index holds A = (1.99, 1.99) and
B = (0.5, 2.0); the nearest point to the query (0.5, 0.5) is B (within
the 20-ring bound, in ring 2), but findNearest stops at the first
non-empty ring, which contains only A, and returns A — not the point of
globally minimum haversine distance. -/
theorem claimC2_counterexample :
    (gC2cex.findNearest (1/2) (1/2)).1 = some ⟨199/100, 199/100, none⟩ ∧
    (⟨1/2, 2, none⟩ : GPoint Unit) ∈ gC2cex.allPoints ∧
    haversineDistance (1/2) (1/2) (1/2) 2 <
      haversineDistance (1/2) (1/2) (199/100) (199/100) := by
  have hIR : intRange 1 = [-1, 0, 1] := by decide
  have hcand : gC2cex.getNearbyPoints (1/2) (1/2) 1 =
      [⟨199/100, 199/100, none⟩] := by
    norm_num [SpatialGrid.getNearbyPoints, SpatialGrid.bucket, blockCells, hIR,
      SpatialGrid.getCell, gC2cex, SpatialGrid.insert, SpatialGrid.mkEmpty,
      List.filter, Prod.ext_iff]
  refine ⟨?_, ?_, havB_lt_havA_C2⟩
  · rw [findNearest_eval_radius1 gC2cex (1/2) (1/2) (by rw [hcand]; simp), hcand,
      bestScan_single]
  · norm_num [gC2cex, SpatialGrid.insert, SpatialGrid.mkEmpty]

end FireCoverage
